import Mathlib

/-!
Shallow embedding of the Swaadisth REST backend (src/server.js).

The program is an Express application over a Supabase (PostgREST) record
store.  We model the store as explicit lists of records and every handler as
a pure function from the request data and the current store to an HTTP
response together with the updated store.

Modelling conventions, fixed once for the whole file:

* Timestamps are abstract integers.  For the token codec the unit is seconds
  (`expiresIn: "7d"` becomes `now + 7*24*60*60`).  For the account lifecycle
  job the unit is calendar months, so `threeMonthsAgo.setMonth(getMonth()-3)`
  becomes `now - 3`.
* PostgREST's single-object mode (`.single()`): the reply carries `data` when
  the filtered result has exactly one row, and an error (with `data` null)
  when it has zero rows or more than one row.  `single` below models exactly
  that, and handlers that destructure only `data` branch on the `Option`.
* SQL comparison semantics: a `lt` filter on a NULL column never matches,
  so the lifecycle job's `lt("last_login", cutoff)` skips users whose
  `last_login` is unset (`none`).
* The store client is supabase-js v2, pinned by the code's own
  `.insert(...).select().single()` and `.update(...).select().single()`
  mutation chains (the v2 idiom for opting back into returned rows).  In v2
  a `delete()` without `.select()` executes the deletion and replies with
  `data` null unconditionally, so the DELETE /address/:id handler's
  `if (error || !data)` check always takes the 404 branch, even when rows
  were in fact deleted.
* JWT: a signed token is a record carrying the payload, the expiry instant
  and the secret it was signed with.  `jwt.verify` succeeds when the secret
  matches and the current time is before the expiry (jsonwebtoken rejects a
  token whose `exp` is not in the strict future, with no clock tolerance).
  Wire-format parsing of the bearer string is an explicit `decode` parameter
  returning `none` on malformed input.
* Response bodies are modelled by their HTTP status and their `message` /
  `error` string; echoed records (user, address, token) are not part of any
  claim's observable and are omitted from the response value, while their
  effect on the store is modelled in full.
-/

namespace Swaadisth

/-- A row of the `users` table: id, unique mobile number (login key), email,
display name, and the nullable `last_login` timestamp. -/
structure User where
  id : Int
  mobile_number : String
  email : String
  name : String
  last_login : Option Int
deriving DecidableEq, Repr

/-- A row of the `addresses` table; `user_id` is the owning user's id. -/
structure Address where
  id : Int
  user_id : Int
  full_name : String
  mobile_number : String
  address_line1 : String
  address_line2 : String
  landmark : String
  pincode : String
  city : String
  state : String
  type : String
deriving DecidableEq, Repr

/-- The database state: `users`, `addresses` and the `news_letter` table
(the latter holds only an email column). -/
structure Store where
  users : List User
  addresses : List Address
  news_letter : List String
deriving DecidableEq, Repr

/-- PostgREST single-object mode: `data` is the row when the result set has
exactly one row, and null (with an error) when it has zero or several rows
(for mutations the several-row case is reverted by PostgREST). -/
def single {α : Type} (rows : List α) : Option α :=
  match rows with
  | [x] => some x
  | _ => none

/-- An HTTP response, reduced to status code and message/error string. -/
structure Resp where
  status : Nat
  body : String
deriving DecidableEq, Repr

/-- The claims portion of a JWT issued by this server:
`{ user_id: user.id, mobile: user.mobile_number }`. -/
structure TokenPayload where
  user_id : Int
  mobile : String
deriving DecidableEq, Repr

/-- A signed token: payload, expiry instant, and the secret used to sign
(standing in for the HMAC signature). -/
structure SignedToken where
  payload : TokenPayload
  exp : Int
  sig : String
deriving DecidableEq, Repr

/-- `expiresIn: "7d"` in seconds. -/
def sevenDaysSeconds : Int := 7 * 24 * 60 * 60

/-- `generateToken` (server.js:26-30): sign `{user_id, mobile}` with the
process secret, valid for 7 days from `now`. -/
def generateToken (user : User) (secret : String) (now : Int) : SignedToken :=
  { payload := { user_id := user.id, mobile := user.mobile_number }
    exp := now + sevenDaysSeconds
    sig := secret }

/-- `jwt.verify`: succeeds iff the signature matches the secret and the
expiry is still in the strict future; otherwise it throws (modelled as
`none`). -/
def jwtVerify (tok : SignedToken) (secret : String) (now : Int) : Option TokenPayload :=
  if tok.sig = secret ∧ now < tok.exp then some tok.payload else none

/-- `req.headers.authorization?.split(" ")[1]` followed by the JS falsiness
test `if (!token)`: the empty string is falsy, so a present-but-empty second
component counts as no token. -/
def extractBearer (authorization : Option String) : Option String :=
  match authorization.bind (fun h => (h.splitOn " ")[1]?) with
  | some t => if t.isEmpty then none else some t
  | none => none

/-- `authenticateToken` middleware (server.js:33-50).  `decode` models
parsing of the bearer string into a signed token (`none` on malformed
input, which `jwt.verify` turns into a throw). Returns the authenticated
`user_id` or the error response. -/
def authenticateToken (decode : String → Option SignedToken) (secret : String) (now : Int)
    (st : Store) (authorization : Option String) : Except Resp Int :=
  match extractBearer authorization with
  | none => Except.error ⟨401, "Access Denied. No token provided."⟩
  | some t =>
    match (decode t).bind (fun tok => jwtVerify tok secret now) with
    | none => Except.error ⟨403, "Invalid or Expired Token."⟩
    | some decoded =>
      match single (st.users.filter (fun u => u.id == decoded.user_id)) with
      | none => Except.error ⟨403, "User not found or token invalid."⟩
      | some _ => Except.ok decoded.user_id

/-- A protected route: the guard runs first and its failure short-circuits
the handler entirely (the store is returned untouched). -/
def withAuth (decode : String → Option SignedToken) (secret : String) (now : Int)
    (authorization : Option String) (handler : Int → Store → Resp × Store)
    (st : Store) : Resp × Store :=
  match authenticateToken decode secret now st authorization with
  | Except.error e => (e, st)
  | Except.ok uid => handler uid st

/-- POST /signup (server.js:53-74): reject missing fields, reject an already
registered mobile number, otherwise insert the user (fresh id `newId`,
`last_login` initially null). -/
def signup (st : Store) (mobile_number email name : String) (newId : Int) : Resp × Store :=
  if mobile_number.isEmpty || email.isEmpty || name.isEmpty then
    (⟨400, "All fields are required"⟩, st)
  else
    match single (st.users.filter (fun u => u.mobile_number == mobile_number)) with
    | some _ => (⟨400, "User already exists. Please log in."⟩, st)
    | none =>
      let newUser : User :=
        { id := newId, mobile_number := mobile_number, email := email, name := name
          last_login := none }
      (⟨201, "Signup successful"⟩, { st with users := st.users ++ [newUser] })

/-- POST /login (server.js:77-96): look the user up by mobile number and set
`last_login` to the current time. -/
def login (st : Store) (mobile_number : String) (now : Int) : Resp × Store :=
  if mobile_number.isEmpty then (⟨400, "Mobile number is required"⟩, st)
  else
    match single (st.users.filter (fun u => u.mobile_number == mobile_number)) with
    | none => (⟨404, "User not found. Please sign up."⟩, st)
    | some user =>
      (⟨200, "Login successful"⟩,
        { st with users := st.users.map (fun u =>
            if u.id == user.id then { u with last_login := some now } else u) })

/-- The body fields of POST /address. -/
structure AddressBody where
  full_name : String
  mobile_number : String
  address_line1 : String
  address_line2 : String
  landmark : String
  pincode : String
  city : String
  state : String
  type : String
deriving DecidableEq, Repr

/-- The body fields of PUT /address/:id (no `mobile_number`, and `user_id`
is never part of an update). -/
structure AddressUpdate where
  full_name : String
  address_line1 : String
  address_line2 : String
  landmark : String
  pincode : String
  city : String
  state : String
  type : String
deriving DecidableEq, Repr

/-- POST /address handler body (server.js:118-135), after the guard:
insert an address whose `user_id` is the authenticated caller's id. -/
def postAddressHandler (body : AddressBody) (newId : Int) (uid : Int) (st : Store) :
    Resp × Store :=
  let address : Address :=
    { id := newId, user_id := uid, full_name := body.full_name
      mobile_number := body.mobile_number, address_line1 := body.address_line1
      address_line2 := body.address_line2, landmark := body.landmark
      pincode := body.pincode, city := body.city, state := body.state
      type := body.type }
  (⟨201, "Address added successfully"⟩, { st with addresses := st.addresses ++ [address] })

/-- The column assignments of the PUT /address/:id update. -/
def applyUpdate (body : AddressUpdate) (a : Address) : Address :=
  { a with
    full_name := body.full_name, address_line1 := body.address_line1
    address_line2 := body.address_line2, landmark := body.landmark
    pincode := body.pincode, city := body.city, state := body.state
    type := body.type }

/-- PUT /address/:id handler body (server.js:138-158), after the guard:
update the rows matching both the id and the caller's user id; `.single()`
demands exactly one affected row, else 404 with the store reverted. -/
def putAddressHandler (id : Int) (body : AddressUpdate) (uid : Int) (st : Store) :
    Resp × Store :=
  match single (st.addresses.filter (fun a => a.id == id && a.user_id == uid)) with
  | none => (⟨404, "Address not found or unauthorized access."⟩, st)
  | some _ =>
    (⟨200, "Address updated successfully"⟩,
      { st with addresses := st.addresses.map (fun a =>
          if a.id == id && a.user_id == uid then applyUpdate body a else a) })

/-- DELETE /address/:id handler body (server.js:161-174), after the guard:
the delete removes the rows matching both the id and the caller's user id,
but in supabase-js v2 its reply carries `data` null unconditionally (no
`.select()` is chained), so `if (error || !data)` is always true and the
handler answers 404 whether or not rows were deleted; the 200 branch at
server.js:169 is unreachable. -/
def deleteAddressHandler (id : Int) (uid : Int) (st : Store) : Resp × Store :=
  (⟨404, "Address not found or unauthorized"⟩,
    { st with addresses := st.addresses.filter (fun a => !(a.id == id && a.user_id == uid)) })

/-- POST /subscribe (server.js:179-212): reject a missing email, 409 when
the email is already subscribed, otherwise insert it. -/
def subscribe (st : Store) (email : String) : Resp × Store :=
  if email.isEmpty then (⟨400, "Email is required"⟩, st)
  else
    match single (st.news_letter.filter (fun e => e == email)) with
    | some _ => (⟨409, "Already subscribed"⟩, st)
    | none =>
      (⟨201, "Subscribed successfully"⟩, { st with news_letter := st.news_letter ++ [email] })

/-- `threeMonthsAgo.setMonth(getMonth() - 3)` with time measured in months. -/
def cleanupCutoff (now : Int) : Int := now - 3

/-- The `lt("last_login", cutoff)` filter under SQL NULL semantics: a NULL
`last_login` never compares below the cutoff. -/
def isInactive (cutoff : Int) (u : User) : Bool :=
  match u.last_login with
  | some t => decide (t < cutoff)
  | none => false

/-- The ids selected by the lifecycle job's query. -/
def inactiveUserIds (cutoff : Int) (st : Store) : List Int :=
  (st.users.filter (isInactive cutoff)).map (fun u => u.id)

/-- First deletion phase of the job: drop every address owned by a selected
user (dependent records first). -/
def deleteAddressesOf (userIds : List Int) (st : Store) : Store :=
  { st with addresses := st.addresses.filter (fun a => !(userIds.contains a.user_id)) }

/-- Second deletion phase of the job: drop the selected users themselves. -/
def deleteUsersIn (userIds : List Int) (st : Store) : Store :=
  { st with users := st.users.filter (fun u => !(userIds.contains u.id)) }

/-- `cleanupInactiveUsers` (server.js:231-256): select users whose
`last_login` is strictly older than now minus 3 months; when the selection
is non-empty, delete their addresses first and then the users. -/
def cleanupInactiveUsers (now : Int) (st : Store) : Store :=
  let userIds := inactiveUserIds (cleanupCutoff now) st
  if userIds.length > 0 then deleteUsersIn userIds (deleteAddressesOf userIds st) else st

/-- The store-mutating operations of the system, each carried with the
request data it needs; the three address routes run behind the guard. -/
inductive MutOp where
  | postAddress (authorization : Option String) (body : AddressBody) (newId : Int)
  | putAddress (authorization : Option String) (id : Int) (body : AddressUpdate)
  | deleteAddress (authorization : Option String) (id : Int)
  | cleanup
deriving DecidableEq

/-- The store after running one mutating operation end to end. -/
def applyMutOp (decode : String → Option SignedToken) (secret : String) (now : Int)
    (op : MutOp) (st : Store) : Store :=
  match op with
  | MutOp.postAddress a body newId => (withAuth decode secret now a (postAddressHandler body newId) st).2
  | MutOp.putAddress a id body => (withAuth decode secret now a (putAddressHandler id body) st).2
  | MutOp.deleteAddress a id => (withAuth decode secret now a (deleteAddressHandler id) st).2
  | MutOp.cleanup => cleanupInactiveUsers now st

/-- Referential integrity: every address references an existing user. -/
def addrInvariant (st : Store) : Prop :=
  ∀ a ∈ st.addresses, ∃ u ∈ st.users, u.id = a.user_id

/-! Concrete fixtures used by the scenario parts and the witnesses. -/

/-- User U1 of the lifecycle scenario: last login 4 months before now = 0. -/
def demoU1 : User :=
  { id := 1, mobile_number := "9000000001", email := "u1@example.com", name := "U1"
    last_login := some (-4) }

/-- User U2 of the lifecycle scenario: last login 1 month before now = 0. -/
def demoU2 : User :=
  { id := 2, mobile_number := "9000000002", email := "u2@example.com", name := "U2"
    last_login := some (-1) }

/-- A user who has never logged in (`last_login` unset). -/
def demoU3 : User :=
  { id := 3, mobile_number := "9000000003", email := "u3@example.com", name := "U3"
    last_login := none }

/-- Address A1, owned by U1. -/
def demoA1 : Address :=
  { id := 10, user_id := 1, full_name := "U1", mobile_number := "9000000001"
    address_line1 := "12 Main Road", address_line2 := "Flat 3", landmark := "Park"
    pincode := "110001", city := "Delhi", state := "DL", type := "Home" }

/-- The lifecycle scenario store: U1, U2 and A1. -/
def demoStore : Store :=
  { users := [demoU1, demoU2], addresses := [demoA1], news_letter := [] }

/-- A store containing a never-logged-in user and an address of U1. -/
def demoStore2 : Store :=
  { users := [demoU1, demoU3], addresses := [demoA1], news_letter := [] }

/-! Helper lemmas. -/

/-- A singular reply carries a member of the filtered rows. -/
theorem single_eq_some_mem {α : Type} {l : List α} {x : α} (h : single l = some x) :
    x ∈ l := by
  match l with
  | [] => simp [single] at h
  | [y] =>
    simp [single] at h
    simp [h]
  | y :: z :: t => simp [single] at h

/-- If the guard lets `uid` through, a user with that id is in the store. -/
theorem authenticateToken_ok_mem (decode : String → Option SignedToken) (secret : String)
    (now : Int) (st : Store) (authorization : Option String) (uid : Int)
    (h : authenticateToken decode secret now st authorization = Except.ok uid) :
    ∃ u ∈ st.users, u.id = uid := by
  unfold authenticateToken at h
  cases hb : extractBearer authorization with
  | none => rw [hb] at h; simp at h
  | some t =>
    rw [hb] at h
    dsimp only at h
    cases hv : (decode t).bind (fun tok => jwtVerify tok secret now) with
    | none => rw [hv] at h; simp at h
    | some decoded =>
      rw [hv] at h
      dsimp only at h
      cases hs : single (st.users.filter (fun u => u.id == decoded.user_id)) with
      | none => rw [hs] at h; simp at h
      | some u =>
        rw [hs] at h
        dsimp only at h
        have hmem := single_eq_some_mem hs
        rw [List.mem_filter] at hmem
        refine ⟨u, hmem.1, ?_⟩
        have hid : u.id = decoded.user_id := by
          have := hmem.2
          simpa using this
        rw [hid]
        injection h

/-! Claim theorems. -/

/-- C1: the Session Guard resolves every protected request in exactly one of
four ways: no bearer token gives 401; a token failing verification gives 403
"Invalid or Expired Token."; a verified token whose user id does not resolve
gives 403 "User not found or token invalid."; otherwise the user id is
attached and the handler runs.  In each failure case the handler never runs
(the store is returned untouched with the error response). -/
theorem session_guard_four_way (decode : String → Option SignedToken) (secret : String)
    (now : Int) (st : Store) (authorization : Option String)
    (handler : Int → Store → Resp × Store) :
    (extractBearer authorization = none →
      authenticateToken decode secret now st authorization
          = Except.error ⟨401, "Access Denied. No token provided."⟩ ∧
      withAuth decode secret now authorization handler st
          = (⟨401, "Access Denied. No token provided."⟩, st))
  ∧ (∀ t, extractBearer authorization = some t →
      (decode t).bind (fun tok => jwtVerify tok secret now) = none →
      authenticateToken decode secret now st authorization
          = Except.error ⟨403, "Invalid or Expired Token."⟩ ∧
      withAuth decode secret now authorization handler st
          = (⟨403, "Invalid or Expired Token."⟩, st))
  ∧ (∀ t p, extractBearer authorization = some t →
      (decode t).bind (fun tok => jwtVerify tok secret now) = some p →
      single (st.users.filter (fun u => u.id == p.user_id)) = none →
      authenticateToken decode secret now st authorization
          = Except.error ⟨403, "User not found or token invalid."⟩ ∧
      withAuth decode secret now authorization handler st
          = (⟨403, "User not found or token invalid."⟩, st))
  ∧ (∀ t p u, extractBearer authorization = some t →
      (decode t).bind (fun tok => jwtVerify tok secret now) = some p →
      single (st.users.filter (fun v => v.id == p.user_id)) = some u →
      authenticateToken decode secret now st authorization = Except.ok p.user_id ∧
      withAuth decode secret now authorization handler st = handler p.user_id st) := by
  refine ⟨?_, ?_, ?_, ?_⟩
  · intro hb
    constructor
    · simp [authenticateToken, hb]
    · simp [withAuth, authenticateToken, hb]
  · intro t hb hv
    constructor
    · simp [authenticateToken, hb, hv]
    · simp [withAuth, authenticateToken, hb, hv]
  · intro t p hb hv hs
    constructor
    · simp [authenticateToken, hb, hv, hs]
    · simp [withAuth, authenticateToken, hb, hv, hs]
  · intro t p u hb hv hs
    constructor
    · simp [authenticateToken, hb, hv, hs]
    · simp [withAuth, authenticateToken, hb, hv, hs]

/-- Witness for C1: on an empty store with no authorization header the guard
answers 401 and a probe handler never runs. -/
theorem session_guard_four_way_witness :
    authenticateToken (fun _ => none) "secret" 0 ⟨[], [], []⟩ none
        = Except.error ⟨401, "Access Denied. No token provided."⟩ ∧
    withAuth (fun _ => none) "secret" 0 none (fun _ s => (⟨200, "probe"⟩, s)) ⟨[], [], []⟩
        = (⟨401, "Access Denied. No token provided."⟩, ⟨[], [], []⟩) :=
  (session_guard_four_way (fun _ => none) "secret" 0 ⟨[], [], []⟩ none
    (fun _ s => (⟨200, "probe"⟩, s))).1 rfl

/-- On a store with pairwise distinct user ids, membership of a user's id in
the lifecycle job's selection agrees with the inactivity filter. -/
theorem contains_inactiveUserIds (now : Int) (st : Store)
    (hnodup : (st.users.map (fun u => u.id)).Nodup) :
    ∀ u ∈ st.users,
      ((inactiveUserIds (cleanupCutoff now) st).contains u.id)
        = isInactive (cleanupCutoff now) u := by
  intro u hu
  cases hia : isInactive (cleanupCutoff now) u with
  | true =>
    have hmem : u.id ∈ inactiveUserIds (cleanupCutoff now) st := by
      simp only [inactiveUserIds, List.mem_map]
      exact ⟨u, List.mem_filter.mpr ⟨hu, hia⟩, rfl⟩
    simp [hmem]
  | false =>
    have hmem : u.id ∉ inactiveUserIds (cleanupCutoff now) st := by
      intro hmem
      simp only [inactiveUserIds, List.mem_map] at hmem
      obtain ⟨v, hv, hvid⟩ := hmem
      rw [List.mem_filter] at hv
      have hvu : v = u := List.inj_on_of_nodup_map hnodup hv.1 hu hvid
      rw [hvu] at hv
      rw [hv.2] at hia
      simp at hia
    simp [hmem]

/-- C2: one run of the lifecycle job computes the cutoff now minus 3 months,
selects exactly the users whose last login is strictly older than the
cutoff, deletes every address owned by a selected user in a first phase that
leaves all users in place, then deletes the selected users; concretely,
with U1 (last login 4 months ago), U2 (last login 1 month ago) and address
A1 owned by U1, one run at now = 0 removes U1 and A1 and keeps U2. -/
theorem cleanup_job_spec :
    (∀ now st, (st.users.map (fun u => u.id)).Nodup →
      (cleanupInactiveUsers now st).users
          = st.users.filter (fun u => !(isInactive (cleanupCutoff now) u)) ∧
      (cleanupInactiveUsers now st).addresses
          = st.addresses.filter
              (fun a => !((inactiveUserIds (cleanupCutoff now) st).contains a.user_id)) ∧
      (deleteAddressesOf (inactiveUserIds (cleanupCutoff now) st) st).users = st.users)
  ∧ cleanupInactiveUsers 0 demoStore
      = { users := [demoU2], addresses := [], news_letter := [] } := by
  constructor
  · intro now st hnodup
    refine ⟨?_, ?_, rfl⟩
    · simp only [cleanupInactiveUsers]
      by_cases hlen : (inactiveUserIds (cleanupCutoff now) st).length > 0
      · rw [if_pos hlen]
        simp only [deleteUsersIn, deleteAddressesOf]
        exact List.filter_congr (fun u hu => by rw [contains_inactiveUserIds now st hnodup u hu])
      · rw [if_neg hlen]
        have hids : inactiveUserIds (cleanupCutoff now) st = [] := by
          cases hl : inactiveUserIds (cleanupCutoff now) st with
          | nil => rfl
          | cons a t => rw [hl] at hlen; simp at hlen
        have hnone : ∀ u ∈ st.users, isInactive (cleanupCutoff now) u = false := by
          intro u hu
          rw [← contains_inactiveUserIds now st hnodup u hu, hids]
          simp
        symm
        rw [List.filter_eq_self]
        intro u hu
        simp [hnone u hu]
    · simp only [cleanupInactiveUsers]
      by_cases hlen : (inactiveUserIds (cleanupCutoff now) st).length > 0
      · rw [if_pos hlen]
        rfl
      · rw [if_neg hlen]
        have hids : inactiveUserIds (cleanupCutoff now) st = [] := by
          cases hl : inactiveUserIds (cleanupCutoff now) st with
          | nil => rfl
          | cons a t => rw [hl] at hlen; simp at hlen
        rw [hids]
        simp
  · decide

/-- Witness for C2: the general clause applied to the scenario store, whose
user ids are pairwise distinct. -/
theorem cleanup_job_spec_witness :
    (demoStore.users.map (fun u => u.id)).Nodup ∧
    ((cleanupInactiveUsers 0 demoStore).users
        = demoStore.users.filter (fun u => !(isInactive (cleanupCutoff 0) u)) ∧
      (cleanupInactiveUsers 0 demoStore).addresses
          = demoStore.addresses.filter
              (fun a => !((inactiveUserIds (cleanupCutoff 0) demoStore).contains a.user_id)) ∧
      (deleteAddressesOf (inactiveUserIds (cleanupCutoff 0) demoStore) demoStore).users
          = demoStore.users) :=
  ⟨by decide, cleanup_job_spec.1 0 demoStore (by decide)⟩

/-- C10: a user whose last login is unset is never selected by the lifecycle
job: after one run the user is still present and so is every address owned
by that user. -/
theorem cleanup_skips_never_logged_in (now : Int) (st : Store) (u : User)
    (hu : u ∈ st.users) (hn : u.last_login = none)
    (hinj : ∀ v ∈ st.users, v.id = u.id → v = u) :
    u ∈ (cleanupInactiveUsers now st).users ∧
    ∀ a ∈ st.addresses, a.user_id = u.id → a ∈ (cleanupInactiveUsers now st).addresses := by
  have hniu : isInactive (cleanupCutoff now) u = false := by simp [isInactive, hn]
  have hnc : u.id ∉ inactiveUserIds (cleanupCutoff now) st := by
    intro hmem
    simp only [inactiveUserIds, List.mem_map] at hmem
    obtain ⟨v, hv, hvid⟩ := hmem
    rw [List.mem_filter] at hv
    have hvu : v = u := hinj v hv.1 hvid
    rw [hvu] at hv
    rw [hv.2] at hniu
    simp at hniu
  constructor
  · simp only [cleanupInactiveUsers]
    split
    · simp only [deleteUsersIn, deleteAddressesOf]
      rw [List.mem_filter]
      exact ⟨hu, by simp [hnc]⟩
    · exact hu
  · intro a ha hauid
    simp only [cleanupInactiveUsers]
    split
    · simp only [deleteUsersIn, deleteAddressesOf]
      rw [List.mem_filter]
      refine ⟨ha, ?_⟩
      rw [hauid]
      simp [hnc]
    · exact ha

/-- Witness for C10: on a store holding U1 (inactive) and U3 (never logged
in), the run keeps U3 and every address of U3. -/
theorem cleanup_skips_never_logged_in_witness :
    (demoU3 ∈ demoStore2.users ∧ demoU3.last_login = none ∧
      ∀ v ∈ demoStore2.users, v.id = demoU3.id → v = demoU3) ∧
    (demoU3 ∈ (cleanupInactiveUsers 0 demoStore2).users ∧
      ∀ a ∈ demoStore2.addresses, a.user_id = demoU3.id →
        a ∈ (cleanupInactiveUsers 0 demoStore2).addresses) :=
  ⟨⟨by decide, rfl, by decide⟩,
    cleanup_skips_never_logged_in 0 demoStore2 demoU3 (by decide) rfl (by decide)⟩

/-- C3: a token issued at time T embeds the user's id and mobile number and
is valid for exactly 7 days: verification succeeds at T + 6 days yielding
the embedded payload, and fails at T + 7 days and at T + 8 days (no grace
period). -/
theorem token_seven_day_window (user : User) (secret : String) (T : Int) :
    jwtVerify (generateToken user secret T) secret (T + 6 * 86400)
        = some { user_id := user.id, mobile := user.mobile_number } ∧
    jwtVerify (generateToken user secret T) secret (T + 7 * 86400) = none ∧
    jwtVerify (generateToken user secret T) secret (T + 8 * 86400) = none := by
  refine ⟨?_, ?_, ?_⟩ <;>
    simp [jwtVerify, generateToken, sevenDaysSeconds]

/-- A store with just one newsletter subscription, for the C9 witness. -/
def demoStore3 : Store :=
  { users := [], addresses := [], news_letter := ["a@b.com"] }

/-- C4: every store-mutating operation (address creation, address update,
address deletion, and the lifecycle job) preserves the invariant that every
address references an existing user: the guard only lets through a caller
whose user record exists, inserted addresses carry the caller's id, updates
never touch `user_id`, and the job deletes addresses of exactly the users it
deletes. -/
theorem mutation_preserves_addr_invariant (decode : String → Option SignedToken)
    (secret : String) (now : Int) (op : MutOp) (st : Store) (hinv : addrInvariant st) :
    addrInvariant (applyMutOp decode secret now op st) := by
  cases op with
  | postAddress a body newId =>
    simp only [applyMutOp, withAuth]
    split
    · exact hinv
    · next uid heq =>
      obtain ⟨u, hu, huid⟩ := authenticateToken_ok_mem decode secret now st a uid heq
      simp only [postAddressHandler]
      intro x hx
      rw [List.mem_append] at hx
      cases hx with
      | inl hx => exact hinv x hx
      | inr hx =>
        rw [List.mem_singleton] at hx
        rw [hx]
        exact ⟨u, hu, huid⟩
  | putAddress a id body =>
    simp only [applyMutOp, withAuth]
    split
    · exact hinv
    · next uid heq =>
      simp only [putAddressHandler]
      split
      · exact hinv
      · intro x hx
        dsimp only at hx
        rw [List.mem_map] at hx
        obtain ⟨b, hb, hbx⟩ := hx
        obtain ⟨u, hu, huid⟩ := hinv b hb
        refine ⟨u, hu, ?_⟩
        rw [huid, ← hbx]
        cases hcond : (b.id == id && b.user_id == uid) <;> simp [applyUpdate]
  | deleteAddress a id =>
    simp only [applyMutOp, withAuth]
    split
    · exact hinv
    · next uid heq =>
      simp only [deleteAddressHandler]
      intro x hx
      dsimp only at hx
      rw [List.mem_filter] at hx
      exact hinv x hx.1
  | cleanup =>
    simp only [applyMutOp, cleanupInactiveUsers]
    split
    · intro x hx
      simp only [deleteUsersIn, deleteAddressesOf] at hx ⊢
      rw [List.mem_filter] at hx
      obtain ⟨u, hu, huid⟩ := hinv x hx.1
      refine ⟨u, ?_, huid⟩
      rw [List.mem_filter]
      refine ⟨hu, ?_⟩
      rw [huid]
      exact hx.2
    · exact hinv

/-- Witness for C4: the lifecycle job run on the scenario store (whose only
address belongs to an existing user) keeps the invariant. -/
theorem mutation_preserves_addr_invariant_witness :
    addrInvariant demoStore ∧
    addrInvariant (applyMutOp (fun _ => none) "secret" 0 MutOp.cleanup demoStore) :=
  ⟨by unfold addrInvariant; decide,
    mutation_preserves_addr_invariant (fun _ => none) "secret" 0 MutOp.cleanup demoStore
      (by unfold addrInvariant; decide)⟩

/-- C5: evaluating DELETE /address/:id at an existing address owned by the
caller (user 1 deletes its own address A1): the row is removed from the
store, but the response is 404 "Address not found or unauthorized" — the
documented 200 success response never occurs, because the v2 delete reply
carries `data` null and server.js:167 therefore always answers 404. -/
theorem delete_owned_address_returns_404 :
    deleteAddressHandler 10 1 demoStore
      = (⟨404, "Address not found or unauthorized"⟩,
         { users := [demoU1, demoU2], addresses := [], news_letter := [] }) := by
  decide

/-- C6: deleting an address that exists but belongs to a different user
answers 404 and leaves the store unchanged. -/
theorem delete_foreign_address (uid id : Int) (st : Store) (a : Address)
    (ha : a ∈ st.addresses) (hid : a.id = id) (hu : a.user_id ≠ uid)
    (huniq : ∀ b ∈ st.addresses, b.id = id → b = a) :
    deleteAddressHandler id uid st = (⟨404, "Address not found or unauthorized"⟩, st) := by
  have hfil : st.addresses.filter (fun b => !(b.id == id && b.user_id == uid))
      = st.addresses := by
    rw [List.filter_eq_self]
    intro b hb
    by_cases hbid : b.id = id
    · have hba := huniq b hb hbid
      rw [hba]
      simp [hu]
    · simp [hbid]
  simp only [deleteAddressHandler]
  rw [hfil]

/-- Witness for C6: user 2 attempts to delete A1, which belongs to user 1. -/
theorem delete_foreign_address_witness :
    (demoA1 ∈ demoStore.addresses ∧ demoA1.id = 10 ∧ demoA1.user_id ≠ 2 ∧
      ∀ b ∈ demoStore.addresses, b.id = 10 → b = demoA1) ∧
    deleteAddressHandler 10 2 demoStore
        = (⟨404, "Address not found or unauthorized"⟩, demoStore) :=
  ⟨⟨by decide, rfl, by decide, by decide⟩,
    delete_foreign_address 2 10 demoStore demoA1 (by decide) rfl (by decide) (by decide)⟩

/-- C7: a signup whose mobile number belongs to an existing user (mobile
numbers are unique, so exactly one stored user carries it) answers 400 and
leaves the users store unchanged. -/
theorem signup_duplicate_mobile (st : Store) (m e n : String) (newId : Int) (u : User)
    (hone : st.users.filter (fun v => v.mobile_number == m) = [u]) :
    (signup st m e n newId).1.status = 400 ∧ (signup st m e n newId).2 = st := by
  by_cases hm : (m.isEmpty || e.isEmpty || n.isEmpty) = true
  · simp [signup, hm]
  · simp [signup, hm, hone, single]

/-- Witness for C7: signing up again with U1's mobile number. -/
theorem signup_duplicate_mobile_witness :
    (demoStore.users.filter (fun v => v.mobile_number == "9000000001") = [demoU1]) ∧
    ((signup demoStore "9000000001" "x@example.com" "X" 99).1.status = 400 ∧
      (signup demoStore "9000000001" "x@example.com" "X" 99).2 = demoStore) :=
  ⟨by decide,
    signup_duplicate_mobile demoStore "9000000001" "x@example.com" "X" 99 demoU1 (by decide)⟩

/-- Filtering by mobile number commutes with a map that preserves the
mobile number column. -/
theorem filter_mobile_map (l : List User) (m : String) (f : User → User)
    (hf : ∀ u, (f u).mobile_number = u.mobile_number) :
    (l.map f).filter (fun v => v.mobile_number == m)
      = (l.filter (fun v => v.mobile_number == m)).map f := by
  induction l with
  | nil => rfl
  | cons a t ih =>
    cases hc : (a.mobile_number == m) <;>
      simp [List.filter_cons, hf a, hc, ih]

/-- C8: a successful login writes the current time into the user's
`last_login`; after a first login at t1 and a second strictly later login at
t2 the stored user carries `last_login = t2 > t1`. -/
theorem login_updates_last_login (st : Store) (m : String) (t1 t2 : Int) (u : User)
    (hm : m.isEmpty = false)
    (hone : st.users.filter (fun v => v.mobile_number == m) = [u])
    (hlt : t1 < t2) :
    (login st m t1).1 = ⟨200, "Login successful"⟩ ∧
    ((login st m t1).2.users.filter (fun v => v.mobile_number == m))
        = [{ u with last_login := some t1 }] ∧
    (login (login st m t1).2 m t2).1 = ⟨200, "Login successful"⟩ ∧
    ((login (login st m t1).2 m t2).2.users.filter (fun v => v.mobile_number == m))
        = [{ u with last_login := some t2 }] ∧
    t1 < t2 := by
  have hf1 : ∀ v : User,
      (if v.id == u.id then { v with last_login := some t1 } else v).mobile_number
        = v.mobile_number := by
    intro v; split <;> rfl
  have h1 : login st m t1
      = (⟨200, "Login successful"⟩,
         { st with users := st.users.map (fun v =>
             if v.id == u.id then { v with last_login := some t1 } else v) }) := by
    simp [login, hm, hone, single]
  have hfil1 : (login st m t1).2.users.filter (fun v => v.mobile_number == m)
      = [{ u with last_login := some t1 }] := by
    rw [h1]
    dsimp only
    rw [filter_mobile_map st.users m _ hf1, hone]
    simp
  have h2 : ∀ s : Store,
      s.users.filter (fun v => v.mobile_number == m) = [{ u with last_login := some t1 }] →
      login s m t2
        = (⟨200, "Login successful"⟩,
           { s with users := s.users.map (fun v =>
               if v.id == ({ u with last_login := some t1 } : User).id then
                 { v with last_login := some t2 } else v) }) := by
    intro s hs
    simp [login, hm, hs, single]
  have hf2 : ∀ v : User,
      (if v.id == ({ u with last_login := some t1 } : User).id then
          { v with last_login := some t2 } else v).mobile_number
        = v.mobile_number := by
    intro v; split <;> rfl
  have hfil2 : (login (login st m t1).2 m t2).2.users.filter (fun v => v.mobile_number == m)
      = [{ u with last_login := some t2 }] := by
    rw [h2 (login st m t1).2 hfil1]
    dsimp only
    rw [filter_mobile_map _ m _ hf2, hfil1]
    simp
  exact ⟨by rw [h1], hfil1, by rw [h2 (login st m t1).2 hfil1], hfil2, hlt⟩

/-- Witness for C8: U1 logs in at t = 5 and again at t = 9. -/
theorem login_updates_last_login_witness :
    (("9000000001" : String).isEmpty = false ∧
      demoStore.users.filter (fun v => v.mobile_number == "9000000001") = [demoU1] ∧
      (5 : Int) < 9) ∧
    ((login demoStore "9000000001" 5).1 = ⟨200, "Login successful"⟩ ∧
      ((login demoStore "9000000001" 5).2.users.filter
          (fun v => v.mobile_number == "9000000001"))
          = [{ demoU1 with last_login := some 5 }] ∧
      (login (login demoStore "9000000001" 5).2 "9000000001" 9).1
          = ⟨200, "Login successful"⟩ ∧
      ((login (login demoStore "9000000001" 5).2 "9000000001" 9).2.users.filter
          (fun v => v.mobile_number == "9000000001"))
          = [{ demoU1 with last_login := some 9 }] ∧
      (5 : Int) < 9) :=
  ⟨⟨rfl, by decide, by decide⟩,
    login_updates_last_login demoStore "9000000001" 5 9 demoU1 rfl (by decide) (by decide)⟩

/-- C9: when exactly one subscription with a given email is stored, a second
subscribe with that email answers 409 and the store still holds exactly one
record for that email. -/
theorem subscribe_duplicate_email (st : Store) (email : String)
    (he : email.isEmpty = false)
    (hone : st.news_letter.filter (fun x => x == email) = [email]) :
    subscribe st email = (⟨409, "Already subscribed"⟩, st) ∧
    ((subscribe st email).2.news_letter.filter (fun x => x == email)).length = 1 := by
  have h : subscribe st email = (⟨409, "Already subscribed"⟩, st) := by
    simp [subscribe, he, hone, single]
  refine ⟨h, ?_⟩
  rw [h]
  dsimp only
  rw [hone]
  rfl

/-- Witness for C9: a second subscription of the already stored email. -/
theorem subscribe_duplicate_email_witness :
    (("a@b.com" : String).isEmpty = false ∧
      demoStore3.news_letter.filter (fun x => x == "a@b.com") = ["a@b.com"]) ∧
    (subscribe demoStore3 "a@b.com" = (⟨409, "Already subscribed"⟩, demoStore3) ∧
      ((subscribe demoStore3 "a@b.com").2.news_letter.filter
          (fun x => x == "a@b.com")).length = 1) :=
  ⟨⟨rfl, by decide⟩, subscribe_duplicate_email demoStore3 "a@b.com" rfl (by decide)⟩

end Swaadisth
